import Mathlib

/-!
Shallow embedding of the ZenottaJS Helix bridge (trade state machine,
Bitcoin transaction builder, and mailbox codec) for checking its
natural-language specification.

Conventions of the embedding:
* JavaScript numbers are modelled as `Rat` (exact rational arithmetic);
  the claims under scrutiny stay far away from float-rounding scales.
* `Date` values are modelled as millisecond timestamps of type `Rat`.
* A JS object map (`{ [address: string]: T }`) is an association list
  `List (String × T)` with first-occurrence lookup and in-place update.
* Fallible operations return `JsOutcome α`: `ok` for a normal value,
  `err` for a returned `new Error(msg)` value, and `thrown` for a thrown
  `TypeError` (reading a property of `undefined`, or `Object.assign`
  applied to `undefined`).
* Network effects (axios fetches and posts) are passed in as explicit
  arguments: a fetch result is `Sum String data` (`inl` = transport
  error message), a post result is `Option String` (`none` = success,
  `some msg` = error message).
* The repository's `constants.ts` is not part of the sources, so the
  fee-size constants `INPUT_SIZE`/`OUTPUT_SIZE`, the satoshi rate and
  `BTC_BLOCKTIME_SECS` are threaded through as parameters.
-/

/-- Outcome of a JS async operation: a value, a returned Error, or a thrown
exception. -/
inductive JsOutcome (α : Type) where
  | ok : α → JsOutcome α
  | err : String → JsOutcome α
  | thrown : String → JsOutcome α
deriving DecidableEq, Repr

/-- Message of the TypeError thrown when reading a property of `undefined`. -/
def typeErrorRead : String := "TypeError: cannot read properties of undefined"

/-- Message of the TypeError thrown by `Object.assign(undefined, ...)`. -/
def typeErrorAssign : String := "TypeError: cannot convert undefined or null to object"

/-- A JS `Uint8Array`: a reference identity (JS object equality compares
references, not contents) together with its byte contents. -/
structure U8Array where
  id : Nat
  bytes : List Nat
deriving DecidableEq, Repr

/-- JS loose inequality `!=` applied to two objects compares references. -/
def jsObjNe (a b : U8Array) : Bool := a.id != b.id

/-- Value of a single hex digit, as decoded by `Buffer.from(s, 'hex')`. -/
def hexDigit (c : Char) : Option Nat :=
  if '0' ≤ c ∧ c ≤ '9' then some (c.toNat - 48)
  else if 'a' ≤ c ∧ c ≤ 'f' then some (c.toNat - 87)
  else if 'A' ≤ c ∧ c ≤ 'F' then some (c.toNat - 55)
  else none

/-- Decode pairs of hex digits into bytes, stopping at the first invalid or
incomplete pair, as `Buffer.from(s, 'hex')` does. -/
def hexPairs : List Char → List Nat
  | a :: b :: rest =>
    match hexDigit a, hexDigit b with
    | some x, some y => (16 * x + y) :: hexPairs rest
    | _, _ => []
  | _ => []

/-- `Buffer.from(s, 'hex')` contents. -/
def hexDecode (s : String) : List Nat := hexPairs s.data

/-- Association-list lookup modelling JS object property access `m[k]`. -/
def lookupAssoc {α : Type} : List (String × α) → String → Option α
  | [], _ => none
  | (k₀, v₀) :: rest, k => if k₀ == k then some v₀ else lookupAssoc rest k

/-- Association-list update modelling JS object property assignment
`m[k] = v` (replace the existing slot, else append). -/
def setAssoc {α : Type} : List (String × α) → String → α → List (String × α)
  | [], k, v => [(k, v)]
  | (k₀, v₀) :: rest, k, v =>
    if k₀ == k then (k, v) :: rest else (k₀, v₀) :: setAssoc rest k v

/-! ## Data model (`bridge/interfaces.ts`, `interfaces.ts`) -/

/-- `ITradeProgress`: per-counterparty trade record. `status = none` models
the JS `null` status (terminal failure). -/
structure ITradeProgress where
  status : Option Int
  lastEvent : Rat
  ourAddress : String
  reasonForFailure : Option String
deriving DecidableEq, Repr

/-- The in-memory progress map `{ [address: string]: ITradeProgress }`. -/
abbrev ProgressMap := List (String × ITradeProgress)

/-- `IKeypair`: caller-supplied key material. The address is a hex string;
the keys are `Uint8Array` objects. -/
structure IKeypair where
  address : String
  publicKey : U8Array
  secretKey : U8Array
deriving DecidableEq, Repr

/-- `IFreshTest`: the liveness challenge exchanged over the mailbox. -/
structure IFreshTest where
  publicKey : String
  message : String
  signature : Option String
deriving DecidableEq, Repr

/-- `IClientResponse` (content payload omitted; the claims only concern the
status/reason envelope). -/
structure IClientResponse where
  status : String
  reason : String
deriving DecidableEq, Repr

/-! ## Bitcoin transaction builder (`part_000` / `bitcoin.ts`) -/

/-- A UTXO input as assembled by `fetchInputsFromUtxo`. -/
structure UtxoInput where
  address : String
  satoshis : Rat
  script : String
  txId : String
  outputIndex : Nat
deriving DecidableEq, Repr

/-- `IFetchBtcUtxoResponse`. -/
structure IFetchBtcUtxoResponse where
  inputs : List UtxoInput
  totalAmountAvailable : Rat
deriving DecidableEq, Repr

/-- `ITxStage1ScriptInput`. -/
structure ITxStage1ScriptInput where
  theirAddress : String
  ourReturnAddress : String
  zenottasAddress : String
  daysToLock : Rat
  startBlockHeight : Rat
deriving DecidableEq, Repr

/-- `IBtcExpectations`. -/
structure IBtcExpectations where
  ourAddress : String
  zenottasAddress : String
  amount : Rat
deriving DecidableEq, Repr

/-- One element added to a bitcore `Script` by `.add`: either a string
argument (opcode name or address) or a number argument. -/
inductive ScriptPiece where
  | str : String → ScriptPiece
  | num : Rat → ScriptPiece
deriving DecidableEq, Repr

/-- An output of a fetched bitcore `Transaction`. -/
structure BtcOutput where
  satoshis : Rat
  script : String
deriving DecidableEq, Repr

/-- An input of a fetched bitcore `Transaction`; the script may be absent. -/
structure BtcInput where
  script : Option String
deriving DecidableEq, Repr

/-- A fetched bitcore `Transaction` as far as the bridge inspects it. -/
structure BtcTransaction where
  inputs : List BtcInput
  outputs : List BtcOutput
deriving DecidableEq, Repr

/-- `calculateFee(satoshisPerByte, inputCount, satoshisToSend,
totalAmountAvailable)` from `part_000` lines 60-73: computes
`txSize = inputCount * INPUT_SIZE + OUTPUT_SIZE + 10 - inputCount` and
`satoshiFee = satoshisPerByte * txSize`, returning `null` when
`totalAmountAvailable - satoshisToSend - satoshiFee < 0`. The two size
constants live in the missing `constants.ts` and are parameters here. -/
def calculateFee (INPUT_SIZE OUTPUT_SIZE : Rat)
    (satoshisPerByte inputCount satoshisToSend totalAmountAvailable : Rat) :
    Option Rat :=
  let txSize := inputCount * INPUT_SIZE + OUTPUT_SIZE + 10 - inputCount
  let satoshiFee := satoshisPerByte * txSize
  if totalAmountAvailable - satoshisToSend - satoshiFee < 0 then none
  else some satoshiFee

/-- `getLockTimeFromDays(days, startBlockHeight)` from `part_000` lines
48-50: `Math.floor(days * 24 * 60 * 60 / BTC_BLOCKTIME_SECS) +
startBlockHeight`. -/
def getLockTimeFromDays (BTC_BLOCKTIME_SECS days startBlockHeight : Rat) : Rat :=
  ((⌊days * 24 * 60 * 60 / BTC_BLOCKTIME_SECS⌋ : Int) : Rat) + startBlockHeight

/-- `constructTxStage1Script(inputs)` from `part_000` lines 108-128: the
sequence of `.add` arguments building the escrow/refund script. -/
def constructTxStage1Script (BTC_BLOCKTIME_SECS : Rat)
    (inputs : ITxStage1ScriptInput) : List ScriptPiece :=
  [ScriptPiece.str "OP_IF",
   ScriptPiece.str "OP_0",
   ScriptPiece.str "OP_2",
   ScriptPiece.str inputs.theirAddress,
   ScriptPiece.str inputs.zenottasAddress,
   ScriptPiece.str "OP_2",
   ScriptPiece.str "OP_CHECKMULTISIG",
   ScriptPiece.str "OP_ELSE",
   ScriptPiece.num (getLockTimeFromDays BTC_BLOCKTIME_SECS inputs.daysToLock
      inputs.startBlockHeight),
   ScriptPiece.str "OP_CHECKLOCKTIMEVERIFY",
   ScriptPiece.str "OP_DROP",
   ScriptPiece.str "OP_DUP",
   ScriptPiece.str "OP_HASH160",
   ScriptPiece.str inputs.ourReturnAddress,
   ScriptPiece.str "OP_EQUALVERIFY",
   ScriptPiece.str "OP_CHECKSIG",
   ScriptPiece.str "OP_ENDIF"]

/-- Whether the first list is an initial segment of the second. -/
def listStartsWith : List Char → List Char → Bool
  | [], _ => true
  | _ :: _, [] => false
  | a :: as, b :: bs => a == b && listStartsWith as bs

/-- Whether `needle` occurs contiguously inside the second list. -/
def listContainsSub (needle : List Char) : List Char → Bool
  | [] => needle.isEmpty
  | c :: rest => listStartsWith needle (c :: rest) || listContainsSub needle rest

/-- JS substring test `haystack.indexOf(needle) != -1`. -/
def strContains (haystack needle : String) : Bool :=
  listContainsSub needle.data haystack.data

/-- Sum of output satoshi amounts, as the source's
`outputs.reduce((acc, current) => acc + current.satoshis, 0)`. -/
def sumSatoshis (outputs : List BtcOutput) : Rat :=
  outputs.foldl (fun acc current => acc + current.satoshis) 0

/-- `expectationsAreMetBtcTx(transaction, expectations)` from `part_000`
lines 81-102. -/
def expectationsAreMetBtcTx (tx : BtcTransaction) (expectations : IBtcExpectations) :
    Bool :=
  let amount := sumSatoshis tx.outputs
  let ourAddressFilter :=
    tx.outputs.filter (fun o => strContains o.script expectations.ourAddress)
  let zenottasAddressFilter :=
    tx.outputs.filter (fun o => strContains o.script expectations.zenottasAddress)
  if amount != expectations.amount || ourAddressFilter.length != 1 ||
      zenottasAddressFilter.length != 1 then false
  else true

/-- JS truthiness of a `number | null` fee value: `!fee` is true for `null`
and for `0`. -/
def jsFalsyNum (v : Option Rat) : Bool :=
  match v with
  | none => true
  | some x => x == 0

/-- The transaction assembled by `constructTransaction` (mirroring the
builder calls `from`, `to`, `fee`, `change`; the later `setScript` /
`applySignature` mutations are the two optional fields). -/
structure BtcBuiltTx where
  inputs : List UtxoInput
  toAddress : String
  toAmount : Rat
  fee : Rat
  changeAddress : String
  stage1Script : Option (List ScriptPiece)
  appliedSignature : Option String
deriving DecidableEq, Repr

/-- `constructTransaction` from `part_000` lines 194-233, after the UTXO
fetch (whose network result is the `utxoFetchResult` argument; `ourAddress`
stands for the address derived from the private key). The fee guard is the
source's truthiness test `if (!fee)`. -/
def constructTransaction (INPUT_SIZE OUTPUT_SIZE SATOSHI_PER_BYTE_PAYMENT : Rat)
    (utxoFetchResult : Sum String IFetchBtcUtxoResponse)
    (ourAddress theirAddress : String) (amount : Rat) :
    Sum String BtcBuiltTx :=
  match utxoFetchResult with
  | Sum.inl e => Sum.inl e
  | Sum.inr fetched =>
    if fetched.inputs.isEmpty then Sum.inl "No UTXO entries found"
    else
      let fee := calculateFee INPUT_SIZE OUTPUT_SIZE SATOSHI_PER_BYTE_PAYMENT
        (fetched.inputs.length : Rat) amount fetched.totalAmountAvailable
      if jsFalsyNum fee then Sum.inl "Not enough funds"
      else
        Sum.inr
          { inputs := fetched.inputs
            toAddress := theirAddress
            toAmount := amount
            fee := (match fee with | some f => f * 20 | none => 0)
            changeAddress := ourAddress
            stage1Script := none
            appliedSignature := none }

/-- `constructTxStage1` from `part_000` lines 169-189: build a transaction
to their address, then replace the first output's script with the stage-1
escrow script. -/
def constructTxStage1 (INPUT_SIZE OUTPUT_SIZE SATOSHI_PER_BYTE_PAYMENT
    BTC_BLOCKTIME_SECS : Rat) (scriptInputs : ITxStage1ScriptInput)
    (utxoFetchResult : Sum String IFetchBtcUtxoResponse)
    (ourAddress : String) (amount : Rat) : Sum String BtcBuiltTx :=
  match constructTransaction INPUT_SIZE OUTPUT_SIZE SATOSHI_PER_BYTE_PAYMENT
      utxoFetchResult ourAddress scriptInputs.theirAddress amount with
  | Sum.inl e => Sum.inl e
  | Sum.inr tx =>
    Sum.inr { tx with
               stage1Script := some (constructTxStage1Script BTC_BLOCKTIME_SECS scriptInputs) }

/-- `constructTxStage2Partial` from `part_000` lines 142-159: build a
pay-to-self transaction, then apply the previously obtained signature. -/
def constructTxStage2Partial (INPUT_SIZE OUTPUT_SIZE SATOSHI_PER_BYTE_PAYMENT : Rat)
    (ourSig : String) (utxoFetchResult : Sum String IFetchBtcUtxoResponse)
    (ourAddress : String) (amount : Rat) : Sum String BtcBuiltTx :=
  match constructTransaction INPUT_SIZE OUTPUT_SIZE SATOSHI_PER_BYTE_PAYMENT
      utxoFetchResult ourAddress ourAddress amount with
  | Sum.inl e => Sum.inl e
  | Sum.inr tx => Sum.inr { tx with appliedSignature := some ourSig }

/-! ## Trade state machine (`part_002` / `protobridge.ts`, and the shared
methods of `part_000`) -/

/-- `formatMillisecondsToHours(ms)` from `part_002` lines 70-72. -/
def formatMillisecondsToHours (ms : Rat) : Rat := ms / 1000 / 60 / 60

/-- `markedErrorInProgress(theirAddress, reason)` from `part_002` lines
81-89: `Object.assign` the failure onto the existing record (throwing the
`Object.assign` TypeError when no record exists) and return the Error. -/
def markedErrorInProgress {α : Type} (progress : ProgressMap)
    (theirAddress reason : String) (now : Rat) : JsOutcome α × ProgressMap :=
  match lookupAssoc progress theirAddress with
  | none => (JsOutcome.thrown typeErrorAssign, progress)
  | some p =>
    (JsOutcome.err reason,
     setAssoc progress theirAddress
       { p with status := none, lastEvent := now, reasonForFailure := some reason })

/-- `sendFreshTest(intercomHost, theirAddress, ourKeypair)` from `part_002`
lines 148-189, after the axios post (`sendResult`: `none` = the post
succeeded): on success the progress record for `theirAddress` is replaced
wholesale by a fresh stage-0 record. -/
def sendFreshTest (sendResult : Option String) (progress : ProgressMap)
    (theirAddress : String) (ourKeypair : IKeypair) (now : Rat) :
    JsOutcome IClientResponse × ProgressMap :=
  match sendResult with
  | some msg => (JsOutcome.err msg, progress)
  | none =>
    (JsOutcome.ok { status := "success", reason := "Fresh test sent" },
     setAssoc progress theirAddress
       { status := some 0, lastEvent := now, ourAddress := ourKeypair.address,
         reasonForFailure := none })

/-- `signFreshTest(intercomHost, ourKeypair, theirAddress)` from `part_002`
lines 245-301. The first line reads `this.progress[theirAddress].ourAddress`
(throwing when no record exists); the guard then compares the freshly
allocated `Uint8Array.from(Buffer.from(ourAddress, 'hex'))` against
`ourKeypair.publicKey` with JS `!=`, which on two objects compares
references; `freshId` is the allocation identity of the new buffer.
`fetched` is the `getIntercomData` result and `sendResult` the axios post
result of step 3. -/
def signFreshTest (fetched : Sum String (List (String × IFreshTest)))
    (progress : ProgressMap) (ourKeypair : IKeypair) (theirAddress : String)
    (freshId : Nat) (sendResult : Option String) (now : Rat) :
    JsOutcome IClientResponse × ProgressMap :=
  match lookupAssoc progress theirAddress with
  | none => (JsOutcome.thrown typeErrorRead, progress)
  | some p =>
    let ourAddress := p.ourAddress
    let decoded : U8Array := { id := freshId, bytes := hexDecode ourAddress }
    if jsObjNe decoded ourKeypair.publicKey then
      markedErrorInProgress progress theirAddress
        "Our address does not match our public key" now
    else
      match fetched with
      | Sum.inl e => (JsOutcome.err e, progress)
      | Sum.inr data =>
        match lookupAssoc data theirAddress with
        | none => (JsOutcome.err "Data not found for trade partner!", progress)
        | some _freshTest =>
          match sendResult with
          | none =>
            (JsOutcome.ok { status := "success", reason := "Fresh test sent" },
             setAssoc progress theirAddress
               { p with status := some 1, lastEvent := now })
          | some msg => markedErrorInProgress progress theirAddress msg now

/-- JS truthiness of the `string | null` signature field: `null` and the
empty string are falsy. -/
def jsTruthySigField (v : Option String) : Bool :=
  match v with
  | none => false
  | some s => !s.isEmpty

/-- `getFreshTestResponse(intercomHost, ourAddress, ourKeypair,
theirAddress)` from `part_002` lines 311-353. `fetched` is the
`getIntercomData` result; `verifySig` abstracts the nacl
`verify(signature, message, publicKey)` check. The timeout test runs
before any signature inspection. -/
def getFreshTestResponse (verifySig : String → String → String → Bool)
    (fetched : Sum String (List (String × IFreshTest)))
    (progress : ProgressMap) (theirAddress : String)
    (now freshTestResponseTimeout : Rat) :
    JsOutcome IClientResponse × ProgressMap :=
  match fetched with
  | Sum.inl e => (JsOutcome.err e, progress)
  | Sum.inr data =>
    match lookupAssoc data theirAddress with
    | none => (JsOutcome.err "Data not found for trade partner!", progress)
    | some freshTest =>
      match lookupAssoc progress theirAddress with
      | none => (JsOutcome.thrown typeErrorRead, progress)
      | some p =>
        let timeDiff := formatMillisecondsToHours (now - p.lastEvent)
        if timeDiff > freshTestResponseTimeout then
          markedErrorInProgress progress theirAddress
            "Fresh test response timed out" now
        else if jsTruthySigField freshTest.signature then
          if verifySig (freshTest.signature.getD "") freshTest.message
              freshTest.publicKey then
            (JsOutcome.ok { status := "success",
                            reason := "Fresh test signed by other party successfully" },
             setAssoc progress theirAddress
               { p with status := some 2, lastEvent := now })
          else
            markedErrorInProgress progress theirAddress
              "Signature verification failed" now
        else
          markedErrorInProgress progress theirAddress
            "Fresh test signature not found" now

/-- `getMempoolSignature(intercomHost, zenottasAddress, ourAddress,
ourKeypair)` from `part_002` lines 100-111: on a missing mailbox entry it
marks an error under `zenottasAddress`, an address that never has a
progress record. -/
def getMempoolSignature {α : Type} (fetched : Sum String (List (String × α)))
    (progress : ProgressMap) (zenottasAddress : String) (now : Rat) :
    JsOutcome α × ProgressMap :=
  match fetched with
  | Sum.inl e => (JsOutcome.err e, progress)
  | Sum.inr data =>
    match lookupAssoc data zenottasAddress with
    | none =>
      markedErrorInProgress progress zenottasAddress
        "No signature found from Zenotta third transaction stage" now
    | some v => (JsOutcome.ok v, progress)

/-- `sendTxStage1(intercomHost, theirAddress, ourKeypair, transaction)` from
`part_000` lines 289-322, after the axios post: on success `Object.assign`
stage 3 onto the existing record. -/
def sendTxStage1 (sendResult : Option String) (progress : ProgressMap)
    (theirAddress : String) (now : Rat) :
    JsOutcome IClientResponse × ProgressMap :=
  match sendResult with
  | some msg => (JsOutcome.err msg, progress)
  | none =>
    match lookupAssoc progress theirAddress with
    | none => (JsOutcome.thrown typeErrorAssign, progress)
    | some p =>
      (JsOutcome.ok { status := "success", reason := "Sent first transaction stage" },
       setAssoc progress theirAddress { p with status := some 3, lastEvent := now })

/-- `getTxStage1(intercomHost, ourKeypair, theirAddress, expectations)` from
`part_000` lines 333-393. `fetched` is the `getIntercomData` result and
`interp` abstracts `Script.Interpreter().verify(inputScript, outputScript)`.
A fetched transaction object is always truthy, so the source's second
`if (!transaction)` guard never fires and is not represented. -/
def getTxStage1 (interp : String → String → Bool)
    (fetched : Sum String (List (String × BtcTransaction)))
    (progress : ProgressMap) (theirAddress : String)
    (expectations : IBtcExpectations) (now : Rat) :
    JsOutcome IClientResponse × ProgressMap :=
  match fetched with
  | Sum.inl e => (JsOutcome.err e, progress)
  | Sum.inr data =>
    match lookupAssoc data theirAddress with
    | none =>
      markedErrorInProgress progress theirAddress
        "No data for counter party found" now
    | some tx =>
      match tx.inputs.head? with
      | none => (JsOutcome.thrown typeErrorRead, progress)
      | some input0 =>
        match tx.outputs.head? with
        | none => (JsOutcome.thrown typeErrorRead, progress)
        | some output0 =>
          match input0.script with
          | none =>
            markedErrorInProgress progress theirAddress
              ("No input or output script found for " ++ theirAddress) now
          | some inputScript =>
            if !(interp inputScript output0.script) then
              markedErrorInProgress progress theirAddress "Invalid transaction TxA" now
            else if !(expectationsAreMetBtcTx tx expectations) then
              markedErrorInProgress progress theirAddress
                ("Expectations not met for " ++ theirAddress) now
            else
              match lookupAssoc progress theirAddress with
              | none => (JsOutcome.thrown typeErrorAssign, progress)
              | some p =>
                (JsOutcome.ok { status := "success",
                                reason := "Received first transaction stage" },
                 setAssoc progress theirAddress
                   { p with status := some 4, lastEvent := now })

/-- `sendTxStage2Partial(intercomHost, theirAddress, ourKeypair,
txStage2Partial)` from `part_000` lines 395-428, after the axios post: on
success `Object.assign` stage 5 onto the existing record (the source reuses
the reason string of stage 1). -/
def sendTxStage2Partial (sendResult : Option String) (progress : ProgressMap)
    (theirAddress : String) (now : Rat) :
    JsOutcome IClientResponse × ProgressMap :=
  match sendResult with
  | some msg => (JsOutcome.err msg, progress)
  | none =>
    match lookupAssoc progress theirAddress with
    | none => (JsOutcome.thrown typeErrorAssign, progress)
    | some p =>
      (JsOutcome.ok { status := "success", reason := "Sent first transaction stage" },
       setAssoc progress theirAddress { p with status := some 5, lastEvent := now })

/-- `getTxStage2Partial(intercomHost, theirAddress, ourKeypair, ourSig)`
from `part_000` lines 430-474: checks that the first input's script
contains our signature, then `Object.assign` stage 6 onto the record. -/
def getTxStage2Partial (fetched : Sum String (List (String × BtcTransaction)))
    (progress : ProgressMap) (theirAddress : String) (ourSig : String)
    (now : Rat) : JsOutcome IClientResponse × ProgressMap :=
  match fetched with
  | Sum.inl e => (JsOutcome.err e, progress)
  | Sum.inr data =>
    match lookupAssoc data theirAddress with
    | none =>
      markedErrorInProgress progress theirAddress
        "No data for counter party found" now
    | some tx =>
      match tx.inputs.head? with
      | none => (JsOutcome.thrown typeErrorRead, progress)
      | some input0 =>
        match input0.script with
        | none => (JsOutcome.thrown typeErrorRead, progress)
        | some inputScript =>
          if !(strContains inputScript ourSig) then
            markedErrorInProgress progress theirAddress
              "Invalid transaction TxB partial" now
          else
            match lookupAssoc progress theirAddress with
            | none => (JsOutcome.thrown typeErrorAssign, progress)
            | some p =>
              (JsOutcome.ok { status := "success",
                              reason := "Received second transaction stage" },
               setAssoc progress theirAddress
                 { p with status := some 6, lastEvent := now })

/-! ## Mailbox protocol codec

The implementations of `generateIntercomGetBody`, `generateIntercomSetBody`
and `generateIntercomDelBody` live in `utils/intercomUtils.ts`, which is not
among the sources; only their callers and the test vectors in
`tests/__tests__/utils.test.ts` are. They are therefore modelled from the
spec, with the signing primitive `Sign(secretKey, message)` and the
public-key hex encoding abstracted as parameters. -/

/-- Body of a mailbox get request. -/
structure IntercomGetBody where
  key : String
  publicKey : String
  signature : String
deriving DecidableEq, Repr

/-- Body of a mailbox set request. -/
structure IntercomSetBody (α : Type) where
  key : String
  field : String
  publicKey : String
  signature : String
  value : α

/-- Body of a mailbox delete request. -/
structure IntercomDelBody where
  key : String
  field : String
  publicKey : String
  signature : String
deriving DecidableEq, Repr

/-- Modelled from the spec: `generateIntercomGetBody(addressKey, keyPair)`
of the missing `utils/intercomUtils.ts` (spec 4.2 `buildGet`):
`targetKey = ownAddress`, `signature = Sign(secretKey, ownAddress)`. -/
def generateIntercomGetBody (signFn : U8Array → String → String)
    (toHex : U8Array → String) (addressKey : String) (keyPair : IKeypair) :
    IntercomGetBody :=
  { key := addressKey
    publicKey := toHex keyPair.publicKey
    signature := signFn keyPair.secretKey addressKey }

/-- Modelled from the spec: `generateIntercomSetBody(addressKey,
ourAddress, keyPair, value)` of the missing `utils/intercomUtils.ts`
(spec 4.2 `buildSet`): same signature rule, `fieldKey = ownAddress`,
value attached. -/
def generateIntercomSetBody {α : Type} (signFn : U8Array → String → String)
    (toHex : U8Array → String) (addressKey ourAddress : String)
    (keyPair : IKeypair) (value : α) : IntercomSetBody α :=
  { key := addressKey
    field := ourAddress
    publicKey := toHex keyPair.publicKey
    signature := signFn keyPair.secretKey ourAddress
    value := value }

/-- Modelled from the spec: `generateIntercomDelBody(addressKey,
fieldAddress, keyPair)` of the missing `utils/intercomUtils.ts`
(spec 4.2 `buildDelete`): same signature rule, removing the entry the
counterparty posted under `fieldAddress`. -/
def generateIntercomDelBody (signFn : U8Array → String → String)
    (toHex : U8Array → String) (addressKey fieldAddress : String)
    (keyPair : IKeypair) : IntercomDelBody :=
  { key := addressKey
    field := fieldAddress
    publicKey := toHex keyPair.publicKey
    signature := signFn keyPair.secretKey addressKey }

/-! ## Helper lemmas -/

theorem lookupAssoc_setAssoc_self {α : Type} (m : List (String × α)) (k : String) (v : α) :
    lookupAssoc (setAssoc m k v) k = some v := by
  induction m with
  | nil => simp [setAssoc, lookupAssoc]
  | cons hd tl ih =>
    obtain ⟨k₀, v₀⟩ := hd
    by_cases h : k₀ == k
    · simp [setAssoc, lookupAssoc, h]
    · simp [setAssoc, lookupAssoc, h, ih]

theorem markedError_none {α : Type} (progress : ProgressMap)
    (theirAddress reason : String) (now : Rat)
    (h : lookupAssoc progress theirAddress = none) :
    markedErrorInProgress (α := α) progress theirAddress reason now
      = (JsOutcome.thrown typeErrorAssign, progress) := by
  simp [markedErrorInProgress, h]

theorem markedError_some {α : Type} (progress : ProgressMap)
    (theirAddress reason : String) (now : Rat) (p : ITradeProgress)
    (h : lookupAssoc progress theirAddress = some p) :
    markedErrorInProgress (α := α) progress theirAddress reason now
      = (JsOutcome.err reason,
         setAssoc progress theirAddress
           { p with status := none, lastEvent := now, reasonForFailure := some reason }) := by
  simp [markedErrorInProgress, h]

theorem markedError_not_ok {α : Type} (progress : ProgressMap)
    (theirAddress reason : String) (now : Rat) (r : α) :
    (markedErrorInProgress progress theirAddress reason now).1 ≠ JsOutcome.ok r := by
  unfold markedErrorInProgress
  cases h : lookupAssoc progress theirAddress <;> simp

theorem markedError_snd_of_none {α : Type} (progress : ProgressMap)
    (theirAddress reason : String) (now : Rat)
    (h : lookupAssoc progress theirAddress = none) :
    (markedErrorInProgress (α := α) progress theirAddress reason now).2 = progress := by
  simp [markedErrorInProgress, h]

/-! ## Claim theorems -/

/-- C1: for all numbers, `calculateFee` computes
`txSize = inputCount * INPUT_SIZE + OUTPUT_SIZE + 10 - inputCount` and
`fee = satoshisPerByte * txSize`, returns `none` exactly when
`totalAmountAvailable - satoshisToSend - fee < 0`, and otherwise returns
`fee`. -/
theorem calculateFee_spec (INPUT_SIZE OUTPUT_SIZE satoshisPerByte inputCount
    satoshisToSend totalAmountAvailable : Rat) :
    calculateFee INPUT_SIZE OUTPUT_SIZE satoshisPerByte inputCount
        satoshisToSend totalAmountAvailable
      = (if totalAmountAvailable - satoshisToSend -
            satoshisPerByte * (inputCount * INPUT_SIZE + OUTPUT_SIZE + 10 - inputCount) < 0
         then none
         else some (satoshisPerByte *
            (inputCount * INPUT_SIZE + OUTPUT_SIZE + 10 - inputCount))) := rfl

/-- C5: `constructTxStage1Script` produces exactly the escrow/refund opcode
sequence with `locktime = floor(daysToLock * 86400 / BTC_BLOCKTIME_SECS) +
startBlockHeight`; being a pure function of its inputs, identical inputs
give an identical script. -/
theorem constructTxStage1Script_spec (BTC_BLOCKTIME_SECS : Rat)
    (inputs : ITxStage1ScriptInput) :
    constructTxStage1Script BTC_BLOCKTIME_SECS inputs
      = [ScriptPiece.str "OP_IF",
         ScriptPiece.str "OP_0",
         ScriptPiece.str "OP_2",
         ScriptPiece.str inputs.theirAddress,
         ScriptPiece.str inputs.zenottasAddress,
         ScriptPiece.str "OP_2",
         ScriptPiece.str "OP_CHECKMULTISIG",
         ScriptPiece.str "OP_ELSE",
         ScriptPiece.num
           (((⌊inputs.daysToLock * 24 * 60 * 60 / BTC_BLOCKTIME_SECS⌋ : Int) : Rat)
              + inputs.startBlockHeight),
         ScriptPiece.str "OP_CHECKLOCKTIMEVERIFY",
         ScriptPiece.str "OP_DROP",
         ScriptPiece.str "OP_DUP",
         ScriptPiece.str "OP_HASH160",
         ScriptPiece.str inputs.ourReturnAddress,
         ScriptPiece.str "OP_EQUALVERIFY",
         ScriptPiece.str "OP_CHECKSIG",
         ScriptPiece.str "OP_ENDIF"] := rfl

/-- C8: for a fixed own address and keypair, the get, set and delete mailbox
bodies all carry the same signature, namely the signature of the caller's
own address under the caller's secret key, independent of the target key,
the field key and the attached value. -/
theorem intercom_signature_invariant {α : Type} (signFn : U8Array → String → String)
    (toHex : U8Array → String) (ownAddress : String) (keyPair : IKeypair)
    (anyTarget anyField : String) (anyValue : α) :
    (generateIntercomGetBody signFn toHex ownAddress keyPair).signature
        = signFn keyPair.secretKey ownAddress ∧
    (generateIntercomSetBody signFn toHex anyTarget ownAddress keyPair anyValue).signature
        = signFn keyPair.secretKey ownAddress ∧
    (generateIntercomDelBody signFn toHex ownAddress anyField keyPair).signature
        = signFn keyPair.secretKey ownAddress :=
  ⟨rfl, rfl, rfl⟩

/-- C9: a failure path that marks an error for an address with no progress
record throws a TypeError out of the operation instead of returning an
Error value; in particular `getMempoolSignature`, which marks errors under
the Zenotta address, throws when that address has no record and no mailbox
entry. -/
theorem markedError_missing_record_throws (α : Type) (progress : ProgressMap)
    (zenottasAddress reason : String) (now : Rat) (data : List (String × α))
    (hprog : lookupAssoc progress zenottasAddress = none)
    (hdata : lookupAssoc data zenottasAddress = none) :
    markedErrorInProgress (α := IClientResponse) progress zenottasAddress reason now
      = (JsOutcome.thrown typeErrorAssign, progress) ∧
    getMempoolSignature (Sum.inr data) progress zenottasAddress now
      = (JsOutcome.thrown typeErrorAssign, progress) := by
  constructor
  · exact markedError_none progress zenottasAddress reason now hprog
  · simp only [getMempoolSignature, hdata]
    exact markedError_none progress zenottasAddress _ now hprog

/-- C9 witness: with an empty progress map and empty mailbox data, marking
an error under the Zenotta address throws, and so does
`getMempoolSignature`. -/
theorem markedError_missing_record_throws_witness :
    markedErrorInProgress (α := IClientResponse) [] "zen" "reason" 0
      = (JsOutcome.thrown typeErrorAssign, []) ∧
    getMempoolSignature (α := String) (Sum.inr []) [] "zen" 0
      = (JsOutcome.thrown typeErrorAssign, []) :=
  markedError_missing_record_throws String [] "zen" "reason" 0 [] rfl rfl

/-- C2 (code bug): the identity guard of `signFreshTest` compares a freshly
allocated `Uint8Array` against `ourKeypair.publicKey` with JS `!=`, which
compares object references, so the guard fires even when the decoded bytes
of the recorded `ourAddress` equal the public key bytes: at this input the
decoded address bytes equal the keypair's public key bytes, yet the call
returns the identity-mismatch error instead of proceeding. -/
theorem signFreshTest_identity_guard_bug :
    hexDecode "00ff" = [0, 255] ∧
    ( signFreshTest
        (Sum.inr [("bob", { publicKey := "00ff", message := "ab", signature := none })])
        [("bob", { status := some 0, lastEvent := 0, ourAddress := "00ff",
                   reasonForFailure := none })]
        { address := "00ff", publicKey := { id := 0, bytes := [0, 255] },
          secretKey := { id := 1, bytes := [9] } }
        "bob" 2 none 0).1
      = JsOutcome.err "Our address does not match our public key" := by
  constructor
  · rfl
  · rfl

/-- C3: when the counterparty has a progress record and a fresh-test entry
is present in the fetched mailbox data, an elapsed time beyond the
freshness-response timeout makes `getFreshTestResponse` return the timeout
error and mark the record failed, for any signature state and any
verifier. -/
theorem getFreshTestResponse_timeout_spec
    (verifySig : String → String → String → Bool)
    (data : List (String × IFreshTest)) (progress : ProgressMap)
    (theirAddress : String) (now freshTestResponseTimeout : Rat)
    (freshTest : IFreshTest) (p : ITradeProgress)
    (hdata : lookupAssoc data theirAddress = some freshTest)
    (hprog : lookupAssoc progress theirAddress = some p)
    (htime : formatMillisecondsToHours (now - p.lastEvent) > freshTestResponseTimeout) :
    getFreshTestResponse verifySig (Sum.inr data) progress theirAddress now
        freshTestResponseTimeout
      = (JsOutcome.err "Fresh test response timed out",
         setAssoc progress theirAddress
           { p with
               status := none
               lastEvent := now
               reasonForFailure := some "Fresh test response timed out" }) := by
  simp only [getFreshTestResponse, hdata, hprog]
  rw [if_pos htime]
  exact markedError_some progress theirAddress _ now p hprog

/-- C3 witness: a freshness check thirteen hours (in milliseconds) after the
last event with a twelve-hour timeout fails with the timeout error even
though the entry carries a signature and the verifier accepts everything. -/
theorem getFreshTestResponse_timeout_spec_witness :
    getFreshTestResponse (fun _ _ _ => true)
        (Sum.inr [("bob", { publicKey := "pk", message := "ab", signature := some "cd" })])
        [("bob", { status := some 0, lastEvent := 0, ourAddress := "us",
                   reasonForFailure := none })]
        "bob" 46800000 12
      = (JsOutcome.err "Fresh test response timed out",
         [("bob", { status := none, lastEvent := 46800000, ourAddress := "us",
                    reasonForFailure := some "Fresh test response timed out" })]) :=
  getFreshTestResponse_timeout_spec (fun _ _ _ => true)
    [("bob", { publicKey := "pk", message := "ab", signature := some "cd" })]
    [("bob", { status := some 0, lastEvent := 0, ourAddress := "us",
               reasonForFailure := none })]
    "bob" 46800000 12
    { publicKey := "pk", message := "ab", signature := some "cd" }
    { status := some 0, lastEvent := 0, ourAddress := "us", reasonForFailure := none }
    rfl rfl (by norm_num [formatMillisecondsToHours])

theorem expectationsAreMetBtcTx_iff (tx : BtcTransaction) (e : IBtcExpectations) :
    expectationsAreMetBtcTx tx e = true ↔
      (sumSatoshis tx.outputs = e.amount ∧
       (tx.outputs.filter fun o => strContains o.script e.ourAddress).length = 1 ∧
       (tx.outputs.filter fun o => strContains o.script e.zenottasAddress).length = 1) := by
  simp only [expectationsAreMetBtcTx]
  split
  next h =>
    simp only [Bool.or_eq_true, bne_iff_ne] at h
    constructor
    · intro hft
      exact absurd hft Bool.false_ne_true
    · rintro ⟨h1, h2, h3⟩
      rcases h with (h | h) | h <;> exact absurd (by assumption) h
  next h =>
    simp only [Bool.or_eq_true, bne_iff_ne, not_or, not_not] at h
    constructor
    · intro _
      exact ⟨h.1.1, h.1.2, h.2⟩
    · intro _
      rfl

/-- C4: under the presuppositions of the claim (the counterparty's entry is
present in the fetched mailbox data, the transaction has a first input with
a script and a first output, and the counterparty has a progress record),
`getTxStage1` advances the record to status 4 if and only if the script
interpreter accepts the pair of first input and first output scripts,
exactly one output script contains `ourAddress`, exactly one contains the
Zenotta address, and the output amounts sum to the expected amount; when
any check fails the record is instead marked failed with a descriptive
reason. -/
theorem getTxStage1_stage1Verified_iff
    (interp : String → String → Bool)
    (data : List (String × BtcTransaction)) (progress : ProgressMap)
    (theirAddress : String) (expectations : IBtcExpectations) (now : Rat)
    (tx : BtcTransaction) (input0 : BtcInput) (output0 : BtcOutput)
    (inputScript : String) (p : ITradeProgress)
    (hdata : lookupAssoc data theirAddress = some tx)
    (hin : tx.inputs.head? = some input0)
    (hout : tx.outputs.head? = some output0)
    (hscript : input0.script = some inputScript)
    (hprog : lookupAssoc progress theirAddress = some p) :
    ((∃ q, lookupAssoc
          ( getTxStage1 interp (Sum.inr data) progress theirAddress expectations now).2
          theirAddress = some q ∧ q.status = some 4) ↔
       (interp inputScript output0.script = true ∧
        sumSatoshis tx.outputs = expectations.amount ∧
        (tx.outputs.filter fun o => strContains o.script expectations.ourAddress).length = 1 ∧
        (tx.outputs.filter fun o => strContains o.script expectations.zenottasAddress).length = 1)) ∧
    (¬ (interp inputScript output0.script = true ∧
        sumSatoshis tx.outputs = expectations.amount ∧
        (tx.outputs.filter fun o => strContains o.script expectations.ourAddress).length = 1 ∧
        (tx.outputs.filter fun o => strContains o.script expectations.zenottasAddress).length = 1) →
       ∃ reason,
         ( getTxStage1 interp (Sum.inr data) progress theirAddress expectations now).1
             = JsOutcome.err reason ∧
         lookupAssoc
             ( getTxStage1 interp (Sum.inr data) progress theirAddress expectations now).2
             theirAddress
           = some { p with
                      status := none
                      lastEvent := now
                      reasonForFailure := some reason }) := by
  have hmet := expectationsAreMetBtcTx_iff tx expectations
  by_cases hI : interp inputScript output0.script = true
  · by_cases hE : expectationsAreMetBtcTx tx expectations = true
    · have hres :
          getTxStage1 interp (Sum.inr data) progress theirAddress expectations now
            = (JsOutcome.ok { status := "success",
                              reason := "Received first transaction stage" },
               setAssoc progress theirAddress
                 { p with status := some 4, lastEvent := now }) := by
        simp only [getTxStage1, hdata, hin, hout, hscript, hI, hE, hprog]
        simp
      have hrhs := hmet.mp hE
      constructor
      · rw [hres]
        simp only [lookupAssoc_setAssoc_self]
        constructor
        · intro _
          exact ⟨hI, hrhs.1, hrhs.2.1, hrhs.2.2⟩
        · intro _
          exact ⟨{ p with status := some 4, lastEvent := now }, rfl, rfl⟩
      · intro hc
        exact absurd ⟨hI, hrhs.1, hrhs.2.1, hrhs.2.2⟩ hc
    · have hEf : expectationsAreMetBtcTx tx expectations = false := by
        simpa using hE
      have hres :
          getTxStage1 interp (Sum.inr data) progress theirAddress expectations now
            = (JsOutcome.err ("Expectations not met for " ++ theirAddress),
               setAssoc progress theirAddress
                 { p with
                     status := none
                     lastEvent := now
                     reasonForFailure := some ("Expectations not met for " ++ theirAddress) }) := by
        simp only [getTxStage1, hdata, hin, hout, hscript, hI, hEf]
        simpa using
          markedError_some progress theirAddress ("Expectations not met for " ++ theirAddress)
            now p hprog
      constructor
      · rw [hres]
        simp only [lookupAssoc_setAssoc_self]
        constructor
        · rintro ⟨q, hq, hq4⟩
          injection hq with hq
          rw [← hq] at hq4
          simp at hq4
        · rintro ⟨-, hc1, hc2, hc3⟩
          exact absurd (hmet.mpr ⟨hc1, hc2, hc3⟩) hE
      · intro _
        refine ⟨"Expectations not met for " ++ theirAddress, by rw [hres], ?_⟩
        rw [hres]
        simp [lookupAssoc_setAssoc_self]
  · have hIf : interp inputScript output0.script = false := by
      simpa using hI
    have hres :
        getTxStage1 interp (Sum.inr data) progress theirAddress expectations now
          = (JsOutcome.err "Invalid transaction TxA",
             setAssoc progress theirAddress
               { p with
                   status := none
                   lastEvent := now
                   reasonForFailure := some "Invalid transaction TxA" }) := by
      simp only [getTxStage1, hdata, hin, hout, hscript, hIf]
      simpa using markedError_some progress theirAddress "Invalid transaction TxA" now p hprog
    constructor
    · rw [hres]
      simp only [lookupAssoc_setAssoc_self]
      constructor
      · rintro ⟨q, hq, hq4⟩
        injection hq with hq
        rw [← hq] at hq4
        simp at hq4
      · rintro ⟨hc, -⟩
        exact absurd hc hI
    · intro _
      refine ⟨"Invalid transaction TxA", by rw [hres], ?_⟩
      rw [hres]
      simp [lookupAssoc_setAssoc_self]

/-- C4 witness: a transaction paying 60 into a script mentioning our
address and 40 into a script mentioning the Zenotta address, against an
expected amount of 100 and an accepting interpreter, advances the record to
status 4. -/
theorem getTxStage1_stage1Verified_iff_witness :
    ∃ q, lookupAssoc
        ( getTxStage1 (fun _ _ => true)
            (Sum.inr [("bob",
              { inputs := [{ script := some "in" }],
                outputs := [{ satoshis := 60, script := "pay OUR" },
                            { satoshis := 40, script := "pay ZEN" }] })])
            [("bob", { status := some 3, lastEvent := 0, ourAddress := "us",
                       reasonForFailure := none })]
            "bob"
            { ourAddress := "OUR", zenottasAddress := "ZEN", amount := 100 }
            1).2
        "bob" = some q ∧ q.status = some 4 :=
  (getTxStage1_stage1Verified_iff (fun _ _ => true)
      [("bob",
        { inputs := [{ script := some "in" }],
          outputs := [{ satoshis := 60, script := "pay OUR" },
                      { satoshis := 40, script := "pay ZEN" }] })]
      [("bob", { status := some 3, lastEvent := 0, ourAddress := "us",
                 reasonForFailure := none })]
      "bob" { ourAddress := "OUR", zenottasAddress := "ZEN", amount := 100 } 1
      { inputs := [{ script := some "in" }],
        outputs := [{ satoshis := 60, script := "pay OUR" },
                    { satoshis := 40, script := "pay ZEN" }] }
      { script := some "in" } { satoshis := 60, script := "pay OUR" } "in"
      { status := some 3, lastEvent := 0, ourAddress := "us", reasonForFailure := none }
      rfl rfl rfl rfl rfl).1.mpr
    ⟨rfl, by norm_num [sumSatoshis], by rfl, by rfl⟩

theorem jsFalsyNum_iff (o : Option Rat) :
    jsFalsyNum o = true ↔ (o = none ∨ o = some 0) := by
  cases o with
  | none => simp [jsFalsyNum]
  | some x => simp [jsFalsyNum]

/-- C7 (amended): `constructTransaction` (and hence `constructTxStage1` and
`constructTxStage2Partial`) fails with the insufficient-funds error exactly
when `calculateFee` returns `none` OR returns a fee of exactly zero: the
truthiness guard `if (!fee)` conflates the two, so a zero fee is treated as
fee-calculation failure rather than as a valid outcome. -/
theorem constructTransaction_notEnoughFunds_iff
    (INPUT_SIZE OUTPUT_SIZE SATOSHI_PER_BYTE_PAYMENT BTC_BLOCKTIME_SECS : Rat)
    (fetched : IFetchBtcUtxoResponse) (ourAddress theirAddress ourSig : String)
    (scriptInputs : ITxStage1ScriptInput) (amount : Rat)
    (hne : fetched.inputs.isEmpty = false) :
    (constructTransaction INPUT_SIZE OUTPUT_SIZE SATOSHI_PER_BYTE_PAYMENT
        (Sum.inr fetched) ourAddress theirAddress amount = Sum.inl "Not enough funds"
      ↔ (calculateFee INPUT_SIZE OUTPUT_SIZE SATOSHI_PER_BYTE_PAYMENT
            ((fetched.inputs.length : Nat) : Rat) amount fetched.totalAmountAvailable
              = none ∨
         calculateFee INPUT_SIZE OUTPUT_SIZE SATOSHI_PER_BYTE_PAYMENT
            ((fetched.inputs.length : Nat) : Rat) amount fetched.totalAmountAvailable
              = some 0)) ∧
    (constructTxStage1 INPUT_SIZE OUTPUT_SIZE SATOSHI_PER_BYTE_PAYMENT
        BTC_BLOCKTIME_SECS scriptInputs (Sum.inr fetched) ourAddress amount
          = Sum.inl "Not enough funds"
      ↔ (calculateFee INPUT_SIZE OUTPUT_SIZE SATOSHI_PER_BYTE_PAYMENT
            ((fetched.inputs.length : Nat) : Rat) amount fetched.totalAmountAvailable
              = none ∨
         calculateFee INPUT_SIZE OUTPUT_SIZE SATOSHI_PER_BYTE_PAYMENT
            ((fetched.inputs.length : Nat) : Rat) amount fetched.totalAmountAvailable
              = some 0)) ∧
    ( constructTxStage2Partial INPUT_SIZE OUTPUT_SIZE SATOSHI_PER_BYTE_PAYMENT ourSig
        (Sum.inr fetched) ourAddress amount = Sum.inl "Not enough funds"
      ↔ (calculateFee INPUT_SIZE OUTPUT_SIZE SATOSHI_PER_BYTE_PAYMENT
            ((fetched.inputs.length : Nat) : Rat) amount fetched.totalAmountAvailable
              = none ∨
         calculateFee INPUT_SIZE OUTPUT_SIZE SATOSHI_PER_BYTE_PAYMENT
            ((fetched.inputs.length : Nat) : Rat) amount fetched.totalAmountAvailable
              = some 0)) := by
  have hcore : ∀ their : String,
      (constructTransaction INPUT_SIZE OUTPUT_SIZE SATOSHI_PER_BYTE_PAYMENT
          (Sum.inr fetched) ourAddress their amount = Sum.inl "Not enough funds"
        ↔ (calculateFee INPUT_SIZE OUTPUT_SIZE SATOSHI_PER_BYTE_PAYMENT
              ((fetched.inputs.length : Nat) : Rat) amount fetched.totalAmountAvailable
                = none ∨
           calculateFee INPUT_SIZE OUTPUT_SIZE SATOSHI_PER_BYTE_PAYMENT
              ((fetched.inputs.length : Nat) : Rat) amount fetched.totalAmountAvailable
                = some 0)) := by
    intro their
    cases hfc : calculateFee INPUT_SIZE OUTPUT_SIZE SATOSHI_PER_BYTE_PAYMENT
        ((fetched.inputs.length : Nat) : Rat) amount fetched.totalAmountAvailable with
    | none => simp [constructTransaction, hne, hfc, jsFalsyNum]
    | some f =>
      by_cases hf0 : f = 0
      · subst hf0
        simp [constructTransaction, hne, hfc, jsFalsyNum]
      · simp [constructTransaction, hne, hfc, jsFalsyNum, hf0]
  have hs1 : constructTxStage1 INPUT_SIZE OUTPUT_SIZE SATOSHI_PER_BYTE_PAYMENT
      BTC_BLOCKTIME_SECS scriptInputs (Sum.inr fetched) ourAddress amount
        = Sum.inl "Not enough funds"
      ↔ constructTransaction INPUT_SIZE OUTPUT_SIZE SATOSHI_PER_BYTE_PAYMENT
          (Sum.inr fetched) ourAddress scriptInputs.theirAddress amount
            = Sum.inl "Not enough funds" := by
    unfold constructTxStage1
    cases h : constructTransaction INPUT_SIZE OUTPUT_SIZE SATOSHI_PER_BYTE_PAYMENT
        (Sum.inr fetched) ourAddress scriptInputs.theirAddress amount with
    | inl e => simp [h]
    | inr tx => simp [h]
  have hs2 : constructTxStage2Partial INPUT_SIZE OUTPUT_SIZE SATOSHI_PER_BYTE_PAYMENT
      ourSig (Sum.inr fetched) ourAddress amount = Sum.inl "Not enough funds"
      ↔ constructTransaction INPUT_SIZE OUTPUT_SIZE SATOSHI_PER_BYTE_PAYMENT
          (Sum.inr fetched) ourAddress ourAddress amount = Sum.inl "Not enough funds" := by
    unfold constructTxStage2Partial
    cases h : constructTransaction INPUT_SIZE OUTPUT_SIZE SATOSHI_PER_BYTE_PAYMENT
        (Sum.inr fetched) ourAddress ourAddress amount with
    | inl e => simp [h]
    | inr tx => simp [h]
  exact ⟨hcore theirAddress, hs1.trans (hcore scriptInputs.theirAddress),
         hs2.trans (hcore ourAddress)⟩

/-- C7 counterexample: with a satoshi rate of zero the fee computes to
exactly zero (`calculateFee` returns `some 0`, not `none`), yet
`constructTransaction` fails with the insufficient-funds error, so the
claimed equivalence with fee-calculation failure is false at this input. -/
theorem constructTransaction_zero_fee_cex :
    calculateFee 1 1 0 1 5 10 = some 0 ∧
    constructTransaction 1 1 0
        (Sum.inr { inputs := [{ address := "a", satoshis := 10, script := "s",
                                txId := "t", outputIndex := 0 }],
                   totalAmountAvailable := 10 })
        "us" "them" 5 = Sum.inl "Not enough funds" ∧
    ¬ ((constructTransaction 1 1 0
          (Sum.inr { inputs := [{ address := "a", satoshis := 10, script := "s",
                                  txId := "t", outputIndex := 0 }],
                     totalAmountAvailable := 10 })
          "us" "them" 5 = Sum.inl "Not enough funds")
        ↔ (calculateFee 1 1 0 1 5 10 = none)) := by
  have hfee : calculateFee 1 1 0 1 5 10 = some 0 := by
    norm_num [calculateFee]
  have hctx : constructTransaction 1 1 0
      (Sum.inr { inputs := [{ address := "a", satoshis := 10, script := "s",
                              txId := "t", outputIndex := 0 }],
                 totalAmountAvailable := 10 })
      "us" "them" 5 = Sum.inl "Not enough funds" := by
    norm_num [constructTransaction, calculateFee, jsFalsyNum]
  refine ⟨hfee, hctx, ?_⟩
  intro hiff
  have hnone := hiff.mp hctx
  rw [hfee] at hnone
  simp at hnone

/-- C7 witness: with a nonzero rate the fee is `some 11` and the
transaction builds without the insufficient-funds error, on all three
construction paths. -/
theorem constructTransaction_notEnoughFunds_iff_witness :
    (constructTransaction 1 1 1
        (Sum.inr { inputs := [{ address := "a", satoshis := 100, script := "s",
                                txId := "t", outputIndex := 0 }],
                   totalAmountAvailable := 100 })
        "us" "them" 5 = Sum.inl "Not enough funds"
      ↔ (calculateFee 1 1 1
            (([({ address := "a", satoshis := 100, script := "s", txId := "t",
                  outputIndex := 0 } : UtxoInput)].length : Nat) : Rat) 5 100 = none ∨
         calculateFee 1 1 1
            (([({ address := "a", satoshis := 100, script := "s", txId := "t",
                  outputIndex := 0 } : UtxoInput)].length : Nat) : Rat) 5 100 = some 0)) ∧
    (constructTxStage1 1 1 1 600
        { theirAddress := "them", ourReturnAddress := "ret", zenottasAddress := "zen",
          daysToLock := 1, startBlockHeight := 0 }
        (Sum.inr { inputs := [{ address := "a", satoshis := 100, script := "s",
                                txId := "t", outputIndex := 0 }],
                   totalAmountAvailable := 100 })
        "us" 5 = Sum.inl "Not enough funds"
      ↔ (calculateFee 1 1 1
            (([({ address := "a", satoshis := 100, script := "s", txId := "t",
                  outputIndex := 0 } : UtxoInput)].length : Nat) : Rat) 5 100 = none ∨
         calculateFee 1 1 1
            (([({ address := "a", satoshis := 100, script := "s", txId := "t",
                  outputIndex := 0 } : UtxoInput)].length : Nat) : Rat) 5 100 = some 0)) ∧
    ( constructTxStage2Partial 1 1 1 "sg"
        (Sum.inr { inputs := [{ address := "a", satoshis := 100, script := "s",
                                txId := "t", outputIndex := 0 }],
                   totalAmountAvailable := 100 })
        "us" 5 = Sum.inl "Not enough funds"
      ↔ (calculateFee 1 1 1
            (([({ address := "a", satoshis := 100, script := "s", txId := "t",
                  outputIndex := 0 } : UtxoInput)].length : Nat) : Rat) 5 100 = none ∨
         calculateFee 1 1 1
            (([({ address := "a", satoshis := 100, script := "s", txId := "t",
                  outputIndex := 0 } : UtxoInput)].length : Nat) : Rat) 5 100 = some 0)) :=
  constructTransaction_notEnoughFunds_iff 1 1 1 600
    { inputs := [{ address := "a", satoshis := 100, script := "s", txId := "t",
                   outputIndex := 0 }],
      totalAmountAvailable := 100 }
    "us" "them" "sg"
    { theirAddress := "them", ourReturnAddress := "ret", zenottasAddress := "zen",
      daysToLock := 1, startBlockHeight := 0 }
    5 rfl

/-- C6 counterexample: `sendTxStage1` reports success on a counterparty
whose record is already at status 6, yet it writes status 3 — a successful
operation that does not set the status strictly above its previous value,
without any manual restart involved. -/
theorem tradeStatus_monotonic_cex :
    ( sendTxStage1 none
        [("bob", { status := some 6, lastEvent := 0, ourAddress := "us",
                   reasonForFailure := none })] "bob" 1).1
      = JsOutcome.ok { status := "success", reason := "Sent first transaction stage" } ∧
    lookupAssoc
      (( sendTxStage1 none
          [("bob", { status := some 6, lastEvent := 0, ourAddress := "us",
                     reasonForFailure := none })] "bob" 1).2) "bob"
      = some { status := some 3, lastEvent := 1, ourAddress := "us",
               reasonForFailure := none } ∧
    ¬ ((3 : Int) > 6) := by
  refine ⟨rfl, ?_, by norm_num⟩
  simp [sendTxStage1, lookupAssoc, setAssoc]

/-- C6 (amended): each state-machine operation that reports success writes
its fixed stage number onto the record (0 for `sendFreshTest`, 1 for
`signFreshTest`, 2 for `getFreshTestResponse`, 3 for `sendTxStage1`, 4 for
`getTxStage1`, 5 for `sendTxStage2Partial`, 6 for `getTxStage2Partial`) and
refreshes `lastEvent` — a strict increase when the operations are invoked
in protocol order, though the code does not itself guard against
out-of-order calls moving the status backwards — and every failure recorded
on the progress map sets the status to the terminal Failed value (null)
with the failure reason stored. -/
theorem tradeStatus_updates :
    (∀ (sendResult : Option String) (progress : ProgressMap) (their : String)
        (kp : IKeypair) (now : Rat) (resp : IClientResponse),
      ( sendFreshTest sendResult progress their kp now).1 = JsOutcome.ok resp →
      lookupAssoc ( sendFreshTest sendResult progress their kp now).2 their
        = some { status := some 0, lastEvent := now, ourAddress := kp.address,
                 reasonForFailure := none }) ∧
    (∀ (fetched : Sum String (List (String × IFreshTest))) (progress : ProgressMap)
        (kp : IKeypair) (their : String) (freshId : Nat) (sendResult : Option String)
        (now : Rat) (resp : IClientResponse) (p : ITradeProgress),
      lookupAssoc progress their = some p →
      ( signFreshTest fetched progress kp their freshId sendResult now).1
          = JsOutcome.ok resp →
      lookupAssoc ( signFreshTest fetched progress kp their freshId sendResult now).2 their
        = some { p with status := some 1, lastEvent := now }) ∧
    (∀ (verifySig : String → String → String → Bool)
        (fetched : Sum String (List (String × IFreshTest))) (progress : ProgressMap)
        (their : String) (now timeout : Rat) (resp : IClientResponse) (p : ITradeProgress),
      lookupAssoc progress their = some p →
      ( getFreshTestResponse verifySig fetched progress their now timeout).1
          = JsOutcome.ok resp →
      lookupAssoc ( getFreshTestResponse verifySig fetched progress their now timeout).2 their
        = some { p with status := some 2, lastEvent := now }) ∧
    (∀ (sendResult : Option String) (progress : ProgressMap) (their : String)
        (now : Rat) (resp : IClientResponse) (p : ITradeProgress),
      lookupAssoc progress their = some p →
      ( sendTxStage1 sendResult progress their now).1 = JsOutcome.ok resp →
      lookupAssoc ( sendTxStage1 sendResult progress their now).2 their
        = some { p with status := some 3, lastEvent := now }) ∧
    (∀ (interp : String → String → Bool)
        (fetched : Sum String (List (String × BtcTransaction))) (progress : ProgressMap)
        (their : String) (e : IBtcExpectations) (now : Rat) (resp : IClientResponse)
        (p : ITradeProgress),
      lookupAssoc progress their = some p →
      ( getTxStage1 interp fetched progress their e now).1 = JsOutcome.ok resp →
      lookupAssoc ( getTxStage1 interp fetched progress their e now).2 their
        = some { p with status := some 4, lastEvent := now }) ∧
    (∀ (sendResult : Option String) (progress : ProgressMap) (their : String)
        (now : Rat) (resp : IClientResponse) (p : ITradeProgress),
      lookupAssoc progress their = some p →
      ( sendTxStage2Partial sendResult progress their now).1 = JsOutcome.ok resp →
      lookupAssoc ( sendTxStage2Partial sendResult progress their now).2 their
        = some { p with status := some 5, lastEvent := now }) ∧
    (∀ (fetched : Sum String (List (String × BtcTransaction))) (progress : ProgressMap)
        (their : String) (ourSig : String) (now : Rat) (resp : IClientResponse)
        (p : ITradeProgress),
      lookupAssoc progress their = some p →
      ( getTxStage2Partial fetched progress their ourSig now).1 = JsOutcome.ok resp →
      lookupAssoc ( getTxStage2Partial fetched progress their ourSig now).2 their
        = some { p with status := some 6, lastEvent := now }) ∧
    (∀ (α : Type) (progress : ProgressMap) (their reason : String) (now : Rat)
        (p : ITradeProgress),
      lookupAssoc progress their = some p →
      markedErrorInProgress (α := α) progress their reason now
        = (JsOutcome.err reason,
           setAssoc progress their
             { p with
                 status := none
                 lastEvent := now
                 reasonForFailure := some reason })) := by
  refine ⟨?_, ?_, ?_, ?_, ?_, ?_, ?_, ?_⟩
  · intro sendResult progress their kp now resp hok
    cases sendResult with
    | some msg => simp [sendFreshTest] at hok
    | none => simp [sendFreshTest, lookupAssoc_setAssoc_self]
  · intro fetched progress kp their freshId sendResult now resp p hprog hok
    unfold signFreshTest at hok ⊢
    simp only [hprog] at hok ⊢
    by_cases hg : jsObjNe { id := freshId, bytes := hexDecode p.ourAddress }
        kp.publicKey = true
    · rw [if_pos hg] at hok
      exact absurd hok (markedError_not_ok _ _ _ _ _)
    · rw [if_neg hg] at hok ⊢
      rcases fetched with er | data
      · simp at hok
      · dsimp only at hok ⊢
        cases hd : lookupAssoc data their with
        | none => simp [hd] at hok
        | some ft =>
          simp only [hd] at hok
          dsimp only
          cases sendResult with
          | some msg =>
            dsimp only at hok
            exact absurd hok (markedError_not_ok _ _ _ _ _)
          | none => simp [lookupAssoc_setAssoc_self]
  · intro verifySig fetched progress their now timeout resp p hprog hok
    unfold getFreshTestResponse at hok ⊢
    rcases fetched with er | data
    · simp at hok
    · dsimp only at hok ⊢
      cases hd : lookupAssoc data their with
      | none => simp [hd] at hok
      | some ft =>
        simp only [hd] at hok
        dsimp only
        simp only [hprog] at hok ⊢
        by_cases ht : timeout < formatMillisecondsToHours (now - p.lastEvent)
        · rw [if_pos ht] at hok
          exact absurd hok (markedError_not_ok _ _ _ _ _)
        · rw [if_neg ht] at hok ⊢
          by_cases hs : jsTruthySigField ft.signature = true
          · rw [if_pos hs] at hok ⊢
            by_cases hv : verifySig (ft.signature.getD "") ft.message ft.publicKey = true
            · rw [if_pos hv] at hok ⊢
              simp [lookupAssoc_setAssoc_self]
            · rw [if_neg hv] at hok
              exact absurd hok (markedError_not_ok _ _ _ _ _)
          · rw [if_neg hs] at hok
            exact absurd hok (markedError_not_ok _ _ _ _ _)
  · intro sendResult progress their now resp p hprog hok
    cases sendResult with
    | some msg => simp [sendTxStage1] at hok
    | none => simp [sendTxStage1, hprog, lookupAssoc_setAssoc_self]
  · intro interp fetched progress their e now resp p hprog hok
    unfold getTxStage1 at hok ⊢
    rcases fetched with er | data
    · simp at hok
    · dsimp only at hok ⊢
      cases hd : lookupAssoc data their with
      | none =>
        simp only [hd] at hok
        exact absurd hok (markedError_not_ok _ _ _ _ _)
      | some tx =>
        simp only [hd] at hok
        dsimp only
        cases hi : tx.inputs.head? with
        | none => simp [hi] at hok
        | some i0 =>
          simp only [hi] at hok
          dsimp only
          cases ho : tx.outputs.head? with
          | none => simp [ho] at hok
          | some o0 =>
            simp only [ho] at hok
            dsimp only
            cases hsc : i0.script with
            | none =>
              simp only [hsc] at hok
              exact absurd hok (markedError_not_ok _ _ _ _ _)
            | some is0 =>
              simp only [hsc] at hok
              dsimp only
              by_cases hI : (!(interp is0 o0.script)) = true
              · rw [if_pos hI] at hok
                exact absurd hok (markedError_not_ok _ _ _ _ _)
              · rw [if_neg hI] at hok ⊢
                by_cases hE : (!(expectationsAreMetBtcTx tx e)) = true
                · rw [if_pos hE] at hok
                  exact absurd hok (markedError_not_ok _ _ _ _ _)
                · rw [if_neg hE] at hok ⊢
                  simp only [hprog] at hok ⊢
                  simp [lookupAssoc_setAssoc_self]
  · intro sendResult progress their now resp p hprog hok
    cases sendResult with
    | some msg => simp [sendTxStage2Partial] at hok
    | none => simp [sendTxStage2Partial, hprog, lookupAssoc_setAssoc_self]
  · intro fetched progress their ourSig now resp p hprog hok
    unfold getTxStage2Partial at hok ⊢
    rcases fetched with er | data
    · simp at hok
    · dsimp only at hok ⊢
      cases hd : lookupAssoc data their with
      | none =>
        simp only [hd] at hok
        exact absurd hok (markedError_not_ok _ _ _ _ _)
      | some tx =>
        simp only [hd] at hok
        dsimp only
        cases hi : tx.inputs.head? with
        | none => simp [hi] at hok
        | some i0 =>
          simp only [hi] at hok
          dsimp only
          cases hsc : i0.script with
          | none => simp [hsc] at hok
          | some is0 =>
            simp only [hsc] at hok
            dsimp only
            by_cases hC : (!(strContains is0 ourSig)) = true
            · rw [if_pos hC] at hok
              exact absurd hok (markedError_not_ok _ _ _ _ _)
            · rw [if_neg hC] at hok ⊢
              simp only [hprog] at hok ⊢
              simp [lookupAssoc_setAssoc_self]
  · intro α progress their reason now p hprog
    exact markedError_some progress their reason now p hprog

/-- C6 witness: concrete success updates write the fixed stage numbers
(0 for a fresh test, 3 for stage 1) with a refreshed `lastEvent`, and a
recorded failure writes the terminal Failed status with its reason. -/
theorem tradeStatus_updates_witness :
    lookupAssoc
        (( sendFreshTest none []
            "bob" { address := "us", publicKey := { id := 0, bytes := [] },
                    secretKey := { id := 1, bytes := [] } } 2).2) "bob"
      = some { status := some 0, lastEvent := 2, ourAddress := "us",
               reasonForFailure := none } ∧
    lookupAssoc
        (( sendTxStage1 none
            [("bob", { status := some 2, lastEvent := 0, ourAddress := "us",
                       reasonForFailure := none })] "bob" 3).2) "bob"
      = some { status := some 3, lastEvent := 3, ourAddress := "us",
               reasonForFailure := none } ∧
    markedErrorInProgress (α := IClientResponse)
        [("bob", { status := some 2, lastEvent := 0, ourAddress := "us",
                   reasonForFailure := none })] "bob" "r" 4
      = (JsOutcome.err "r",
         [("bob", { status := none, lastEvent := 4, ourAddress := "us",
                    reasonForFailure := some "r" })]) :=
  ⟨tradeStatus_updates.1 none [] "bob"
      { address := "us", publicKey := { id := 0, bytes := [] },
        secretKey := { id := 1, bytes := [] } } 2
      { status := "success", reason := "Fresh test sent" } rfl,
   tradeStatus_updates.2.2.2.1 none
      [("bob", { status := some 2, lastEvent := 0, ourAddress := "us",
                 reasonForFailure := none })] "bob" 3
      { status := "success", reason := "Sent first transaction stage" }
      { status := some 2, lastEvent := 0, ourAddress := "us", reasonForFailure := none }
      rfl rfl,
   tradeStatus_updates.2.2.2.2.2.2.2 IClientResponse
      [("bob", { status := some 2, lastEvent := 0, ourAddress := "us",
                 reasonForFailure := none })] "bob" "r" 4
      { status := some 2, lastEvent := 0, ourAddress := "us", reasonForFailure := none }
      rfl⟩

/-- C10: a successful `sendFreshTest` replaces the counterparty's whole
progress record with the fresh stage-0 record, whatever record (if any) was
there before; and it is the only state-machine operation that writes to the
progress map when no record exists yet — with no record, every other
operation leaves the map unchanged (throwing or returning an error). -/
theorem sendFreshTest_restart (progress : ProgressMap) (theirAddress : String)
    (ourKeypair : IKeypair) (now : Rat) :
    ( sendFreshTest none progress theirAddress ourKeypair now).1
        = JsOutcome.ok { status := "success", reason := "Fresh test sent" } ∧
    lookupAssoc ( sendFreshTest none progress theirAddress ourKeypair now).2 theirAddress
        = some { status := some 0, lastEvent := now, ourAddress := ourKeypair.address,
                 reasonForFailure := none } ∧
    (lookupAssoc progress theirAddress = none →
      (∀ (fetched : Sum String (List (String × IFreshTest))) (kp : IKeypair)
          (freshId : Nat) (sendResult : Option String),
          ( signFreshTest fetched progress kp theirAddress freshId sendResult now).2
            = progress) ∧
      (∀ (verifySig : String → String → String → Bool)
          (fetched : Sum String (List (String × IFreshTest))) (timeout : Rat),
          ( getFreshTestResponse verifySig fetched progress theirAddress now timeout).2
            = progress) ∧
      (∀ (sendResult : Option String),
          ( sendTxStage1 sendResult progress theirAddress now).2 = progress) ∧
      (∀ (interp : String → String → Bool)
          (fetched : Sum String (List (String × BtcTransaction)))
          (e : IBtcExpectations),
          ( getTxStage1 interp fetched progress theirAddress e now).2 = progress) ∧
      (∀ (sendResult : Option String),
          ( sendTxStage2Partial sendResult progress theirAddress now).2 = progress) ∧
      (∀ (fetched : Sum String (List (String × BtcTransaction))) (ourSig : String),
          ( getTxStage2Partial fetched progress theirAddress ourSig now).2
            = progress)) := by
  refine ⟨rfl, ?_, ?_⟩
  · simp [sendFreshTest, lookupAssoc_setAssoc_self]
  · intro h
    refine ⟨?_, ?_, ?_, ?_, ?_, ?_⟩
    · intro fetched kp freshId sendResult
      simp [signFreshTest, h]
    · intro verifySig fetched timeout
      rcases fetched with er | data
      · rfl
      · unfold getFreshTestResponse
        dsimp only
        cases hd : lookupAssoc data theirAddress with
        | none => simp
        | some ft => simp [h]
    · intro sendResult
      cases sendResult with
      | some msg => rfl
      | none => simp [sendTxStage1, h]
    · intro interp fetched e
      rcases fetched with er | data
      · rfl
      · unfold getTxStage1
        dsimp only
        cases hd : lookupAssoc data theirAddress with
        | none => exact markedError_snd_of_none progress theirAddress _ now h
        | some tx =>
          dsimp only
          cases hi : tx.inputs.head? with
          | none => simp
          | some i0 =>
            dsimp only
            cases ho : tx.outputs.head? with
            | none => simp
            | some o0 =>
              dsimp only
              cases hsc : i0.script with
              | none => exact markedError_snd_of_none progress theirAddress _ now h
              | some is0 =>
                dsimp only
                by_cases hI : (!(interp is0 o0.script)) = true
                · rw [if_pos hI]
                  exact markedError_snd_of_none progress theirAddress _ now h
                · rw [if_neg hI]
                  by_cases hE : (!(expectationsAreMetBtcTx tx e)) = true
                  · rw [if_pos hE]
                    exact markedError_snd_of_none progress theirAddress _ now h
                  · rw [if_neg hE]
                    simp [h]
    · intro sendResult
      cases sendResult with
      | some msg => rfl
      | none => simp [sendTxStage2Partial, h]
    · intro fetched ourSig
      rcases fetched with er | data
      · rfl
      · unfold getTxStage2Partial
        dsimp only
        cases hd : lookupAssoc data theirAddress with
        | none => exact markedError_snd_of_none progress theirAddress _ now h
        | some tx =>
          dsimp only
          cases hi : tx.inputs.head? with
          | none => simp
          | some i0 =>
            dsimp only
            cases hsc : i0.script with
            | none => simp
            | some is0 =>
              dsimp only
              by_cases hC : (!(strContains is0 ourSig)) = true
              · rw [if_pos hC]
                exact markedError_snd_of_none progress theirAddress _ now h
              · rw [if_neg hC]
                simp [h]

/-- C10 witness: a successful fresh test replaces an existing Failed record
with the fresh stage-0 record, and with no record present `signFreshTest`
leaves the progress map unchanged. -/
theorem sendFreshTest_restart_witness :
    lookupAssoc
        (( sendFreshTest none
            [("bob", { status := none, lastEvent := 0, ourAddress := "old",
                       reasonForFailure := some "was failed" })]
            "bob" { address := "us", publicKey := { id := 0, bytes := [] },
                    secretKey := { id := 1, bytes := [] } } 5).2) "bob"
      = some { status := some 0, lastEvent := 5, ourAddress := "us",
               reasonForFailure := none } ∧
    ( signFreshTest (Sum.inl "down") []
        { address := "us", publicKey := { id := 0, bytes := [] },
          secretKey := { id := 1, bytes := [] } } "bob" 7 none 5).2 = [] :=
  ⟨(sendFreshTest_restart
      [("bob", { status := none, lastEvent := 0, ourAddress := "old",
                 reasonForFailure := some "was failed" })]
      "bob" { address := "us", publicKey := { id := 0, bytes := [] },
              secretKey := { id := 1, bytes := [] } } 5).2.1,
   ((sendFreshTest_restart [] "bob"
      { address := "us", publicKey := { id := 0, bytes := [] },
        secretKey := { id := 1, bytes := [] } } 5).2.2 rfl).1
      (Sum.inl "down")
      { address := "us", publicKey := { id := 0, bytes := [] },
        secretKey := { id := 1, bytes := [] } } 7 none⟩
